import Mathlib

/-!
# ThemeManager (ui/static/theme-manager.js)

A shallow embedding of the `ThemeManager` class: the preference held in memory, the
`localStorage` entry that mirrors it, the markers on the document root, the switcher
controls and the `themechange` events, followed by the properties of the theme state
machine.

JavaScript values are kept as such where the code depends on their coercions:
`this.THEMES[key]` is a property lookup on an object literal (own properties first, then
`Object.prototype`), `saved && ...` and `!this.THEMES[theme]` go through `ToBoolean`.
Methods that run code able to throw return `Except JsError`; a `try`/`catch` is a match
on the result of the guarded call.
-/

set_option autoImplicit false

namespace ThemeManager

/-! ## JavaScript values -/

/-- Primitive values the theme code passes around: the result of `localStorage.getItem`
(`null` or a string), the argument of `setTheme`, the field `currentTheme`. -/
inductive JsPrim where
  | undefined
  | null
  | str (s : String)
  deriving DecidableEq, Repr

/-- ToBoolean on primitives: `undefined`, `null` and the empty string are falsy. -/
def JsPrim.toBoolean : JsPrim → Bool
  | .undefined => false
  | .null => false
  | .str s => decide (s ≠ "")

/-- ToString, which is also ToPropertyKey for these primitives. -/
def JsPrim.toJsString : JsPrim → String
  | .undefined => "undefined"
  | .null => "null"
  | .str s => s

/-- An exception raised by the host (the only source here is `localStorage`). -/
inductive JsError where
  | domException (name : String)
  deriving DecidableEq, Repr

/-- A value of the table `THEMES`: `{ name, icon }`. -/
structure ThemeInfo where
  name : String
  icon : String
  deriving DecidableEq, Repr

/-- The field `STORAGE_KEY`. -/
def STORAGE_KEY : String := "ytdlp2strm-theme"

/-- The own properties of the object literal `THEMES`, in insertion order. -/
def THEMES : List (String × ThemeInfo) :=
  [ ("light", ⟨"Light Mode", "☀️"⟩),
    ("dark", ⟨"Dark Mode", "🌙"⟩),
    ("auto", ⟨"Auto (System)", "🔄"⟩) ]

/-- The property names of `Object.prototype`, the prototype of every object literal
(ECMAScript: the properties of the Object prototype object, and its legacy accessors). -/
def objectPrototypeKeys : List String :=
  [ "constructor", "hasOwnProperty", "isPrototypeOf", "propertyIsEnumerable",
    "toLocaleString", "toString", "valueOf", "__proto__",
    "__defineGetter__", "__defineSetter__", "__lookupGetter__", "__lookupSetter__" ]

/-- What a property read on `THEMES` yields. -/
inductive PropertyValue where
  | undefined
  | themeInfo (t : ThemeInfo)
  | inherited (key : String)
  deriving DecidableEq, Repr

/-- ToBoolean on the result of a property read: objects and functions are truthy. -/
def PropertyValue.toBoolean : PropertyValue → Bool
  | .undefined => false
  | .themeInfo _ => true
  | .inherited _ => true

/-- The read `this.THEMES[key]`: an own property if there is one, otherwise the property
of that name on `Object.prototype` (a function, or the prototype itself for
`__proto__`), otherwise `undefined`. -/
def getProperty (key : JsPrim) : PropertyValue :=
  match THEMES.lookup key.toJsString with
  | some t => .themeInfo t
  | none =>
    if key.toJsString ∈ objectPrototypeKeys then .inherited key.toJsString else .undefined

/-- The call `Object.keys(this.THEMES)`: own enumerable keys in insertion order. -/
def objectKeys : List String := THEMES.map Prod.fst

/-- The call `array.indexOf(v)`: index of the first strictly equal element, or -1. -/
def indexOf (xs : List String) (v : JsPrim) : Int :=
  match xs.findIdx? (fun k => decide (JsPrim.str k = v)) with
  | some i => (i : Int)
  | none => -1

/-- The read `array[i]` for an integer index: `undefined` outside the array. -/
def arrayGet (xs : List String) (i : Int) : JsPrim :=
  if i < 0 then .undefined
  else match xs.get? i.toNat with
    | some k => .str k
    | none => .undefined

/-! ## Host objects -/

/-- The `localStorage` object: its entries, and whether reads or writes currently throw
(storage disabled, access denied, quota exceeded). -/
structure LocalStorage where
  items : List (String × String)
  getItemThrows : Bool
  setItemThrows : Bool
  deriving DecidableEq, Repr

/-- The call `localStorage.getItem(key)`: the stored string, or `null`. -/
def LocalStorage.getItem (ls : LocalStorage) (key : String) : Except JsError JsPrim :=
  if ls.getItemThrows then .error (.domException "SecurityError")
  else match ls.items.lookup key with
    | some v => .ok (.str v)
    | none => .ok .null

/-- The call `localStorage.setItem(key, value)`. -/
def LocalStorage.setItem (ls : LocalStorage) (key value : String) :
    Except JsError LocalStorage :=
  if ls.setItemThrows then .error (.domException "QuotaExceededError")
  else .ok { ls with items := (key, value) :: ls.items.filter (fun kv => kv.1 != key) }

/-- An `option` element. -/
structure OptionEl where
  value : String
  textContent : String
  deriving DecidableEq, Repr

/-- A single-choice `select` element: its options and the index of the selected one. -/
structure SelectEl where
  options : List OptionEl
  selectedIndex : Option Nat
  deriving DecidableEq, Repr

/-- The getter `select.value`: the value of the selected option, or the empty string. -/
def SelectEl.value (sel : SelectEl) : String :=
  match sel.selectedIndex with
  | some i =>
    match sel.options.get? i with
    | some o => o.value
    | none => ""
  | none => ""

/-- The setter `select.value = v`: selects the first option whose value is `v`, and
leaves nothing selected when there is none. -/
def SelectEl.setValue (sel : SelectEl) (v : String) : SelectEl :=
  { sel with selectedIndex := sel.options.findIdx? (fun o => decide (o.value = v)) }

/-- The call `select.appendChild(option)`: a drop-down with nothing selected selects
its first option. -/
def SelectEl.appendChild (sel : SelectEl) (o : OptionEl) : SelectEl :=
  { options := sel.options ++ [o],
    selectedIndex := match sel.selectedIndex with
      | some i => some i
      | none => some 0 }

/-- An element of class `theme-switcher` with its descendants of class `theme-select`,
in document order. -/
structure SwitcherEl where
  selects : List SelectEl
  deriving DecidableEq, Repr

/-- The document root: its `data-theme` attribute and its class list. -/
structure RootEl where
  dataTheme : Option String
  classList : List String
  deriving DecidableEq, Repr

/-- The call `classList.remove(a, b)`. -/
def RootEl.classListRemove (html : RootEl) (tokens : List String) : RootEl :=
  { html with classList := html.classList.filter (fun c => decide (c ∉ tokens)) }

/-- The call `classList.add(token)`: the class list is a set. -/
def RootEl.classListAdd (html : RootEl) (token : String) : RootEl :=
  if token ∈ html.classList then html
  else { html with classList := html.classList ++ [token] }

/-- The part of the document the theme code reads and writes. -/
structure Document where
  documentElement : RootEl
  /-- Whether an element of class `header-controls` exists. -/
  headerControls : Bool
  /-- The elements of class `theme-switcher`. -/
  switchers : List SwitcherEl
  /-- The elements of class `theme-select` outside every `theme-switcher`. -/
  otherSelects : List SelectEl
  /-- Whether a `link[rel=icon]` exists. -/
  favicon : Bool
  deriving DecidableEq, Repr

/-- The result of `document.querySelectorAll('.theme-select')`. -/
def Document.themeSelects (d : Document) : List SelectEl :=
  d.switchers.flatMap SwitcherEl.selects ++ d.otherSelects

/-- The payload of a `themechange` event. -/
structure ThemeChangeDetail where
  theme : JsPrim
  effectiveTheme : JsPrim
  deriving DecidableEq, Repr

/-- A `CustomEvent` dispatched on `window`. -/
structure CustomEvent where
  type : String
  detail : ThemeChangeDetail
  deriving DecidableEq, Repr

/-- The listeners the manager registers. -/
inductive Listener where
  | documentChange
  | documentKeydown
  | colorSchemeChange
  deriving DecidableEq, Repr

/-- The manager and the page it lives in. -/
structure State where
  /-- The field `this.currentTheme` (`undefined` until the constructor assigns it). -/
  currentTheme : JsPrim
  localStorage : LocalStorage
  /-- Is `none` when `window.matchMedia` is missing; otherwise whether the query
  `(prefers-color-scheme: dark)` matches now. -/
  matchMedia : Option Bool
  document : Document
  /-- The events dispatched on `window`, oldest first. -/
  dispatched : List CustomEvent
  /-- The messages passed to `console.warn`, oldest first. -/
  console : List String
  listeners : List Listener
  deriving DecidableEq, Repr

/-- The call `console.warn(msg)`. -/
def consoleWarn (msg : String) (s : State) : State :=
  { s with console := s.console ++ [msg] }

/-- The expression
`window.matchMedia && window.matchMedia('(prefers-color-scheme: dark)').matches`. -/
def prefersDark (s : State) : Bool :=
  match s.matchMedia with
  | some m => m
  | none => false

/-! ## The methods of `ThemeManager` -/

/-- The method `getSavedTheme()`. -/
def getSavedTheme (s : State) : Except JsError (JsPrim × State) :=
  match s.localStorage.getItem STORAGE_KEY with
  | .ok saved =>
    .ok (if saved.toBoolean && (getProperty saved).toBoolean then saved else .str "auto", s)
  | .error _ =>
    .ok (.str "auto", consoleWarn "Could not access localStorage for theme preference" s)

/-- The method `saveTheme(theme)`. -/
def saveTheme (theme : JsPrim) (s : State) : Except JsError State :=
  match s.localStorage.setItem STORAGE_KEY theme.toJsString with
  | .ok ls => .ok { s with localStorage := ls }
  | .error _ => .ok (consoleWarn "Could not save theme preference to localStorage" s)

/-- The method `populateSelect(select)`. -/
def populateSelect (select : SelectEl) : SelectEl :=
  THEMES.foldl
    (fun sel kv => sel.appendChild ⟨kv.1, kv.2.icon ++ " " ++ kv.2.name⟩)
    { select with options := [], selectedIndex := none }

/-- The method `createSwitcherElement()`: a new `div.theme-switcher` holding one
populated `select.theme-select` set to the current theme. -/
def createSwitcherElement (s : State) : SwitcherEl :=
  let select : SelectEl := { options := [], selectedIndex := none }
  let select := populateSelect select
  let select := select.setValue s.currentTheme.toJsString
  { selects := [select] }

/-- The method `createThemeSwitcher()`. -/
def createThemeSwitcher (s : State) : State :=
  if s.document.switchers.length = 0 then
    if s.document.headerControls then
      { s with document :=
          { s.document with switchers := createSwitcherElement s :: s.document.switchers } }
    else s
  else
    { s with document :=
        { s.document with switchers := s.document.switchers.map (fun switcher =>
            match switcher.selects with
            | [] => switcher
            | select :: rest =>
              { selects :=
                  (populateSelect select).setValue s.currentTheme.toJsString :: rest }) } }

/-- The method `updateFavicon(theme)`: its body is commented out. -/
def updateFavicon (_theme : JsPrim) (s : State) : State :=
  if s.document.favicon then s else s

/-- The method `applyTheme(theme)`. -/
def applyTheme (theme : JsPrim) (s : State) : State :=
  let html := s.document.documentElement
  let html : RootEl := { html with dataTheme := none }
  let html := html.classListRemove ["theme-light", "theme-dark"]
  let effectiveTheme : JsPrim :=
    if theme = .str "auto" then
      if prefersDark s then .str "dark" else .str "light"
    else theme
  let html :=
    if effectiveTheme = .str "dark" then
      ({ html with dataTheme := some "dark" } : RootEl).classListAdd "theme-dark"
    else html.classListAdd "theme-light"
  let s := { s with document := { s.document with documentElement := html } }
  let s := updateFavicon effectiveTheme s
  { s with dispatched := s.dispatched ++
      [{ type := "themechange",
         detail := { theme := s.currentTheme, effectiveTheme := effectiveTheme } }] }

/-- The method `updateAllSwitchers()`. -/
def updateAllSwitchers (s : State) : State :=
  let upd := fun (select : SelectEl) => select.setValue s.currentTheme.toJsString
  { s with document :=
      { s.document with
        switchers := s.document.switchers.map
          (fun switcher => { selects := switcher.selects.map upd }),
        otherSelects := s.document.otherSelects.map upd } }

/-- The method `setTheme(theme)`. -/
def setTheme (theme : JsPrim) (s : State) : Except JsError State :=
  if !(getProperty theme).toBoolean then
    .ok (consoleWarn ("Unknown theme: " ++ theme.toJsString) s)
  else do
    let s := { s with currentTheme := theme }
    let s ← saveTheme theme s
    let s := applyTheme theme s
    pure (updateAllSwitchers s)

/-- The method `toggleTheme()`. -/
def toggleTheme (s : State) : Except JsError State :=
  let themes := objectKeys
  let currentIndex := indexOf themes s.currentTheme
  let nextIndex := Int.tmod (currentIndex + 1) themes.length
  setTheme (arrayGet themes nextIndex) s

/-- The method `getCurrentTheme()`. -/
def getCurrentTheme (s : State) : JsPrim := s.currentTheme

/-- The method `getEffectiveTheme()`. -/
def getEffectiveTheme (s : State) : JsPrim :=
  if s.currentTheme = .str "auto" then
    if prefersDark s then .str "dark" else .str "light"
  else s.currentTheme

/-- The method `bindEvents()`. -/
def bindEvents (s : State) : State :=
  { s with listeners := s.listeners ++ [.documentChange, .documentKeydown] }

/-- The listener registered in `init()` on the `(prefers-color-scheme: dark)` query. -/
def onColorSchemeChange (s : State) : State :=
  if s.currentTheme = .str "auto" then applyTheme (.str "auto") s else s

/-- The `change` listener of `bindEvents()`, given the class list and value of the
event target. -/
def onDocumentChange (targetClasses : List String) (targetValue : String) (s : State) :
    Except JsError State :=
  if "theme-select" ∈ targetClasses then setTheme (.str targetValue) s else .ok s

/-- The `keydown` listener of `bindEvents()`. -/
def onDocumentKeydown (ctrlKey metaKey shiftKey : Bool) (key : String) (s : State) :
    Except JsError State :=
  if (ctrlKey || metaKey) && shiftKey && decide (key = "T") then toggleTheme s else .ok s

/-- The method `init()`. -/
def init (s : State) : State :=
  let s := createThemeSwitcher s
  let s := applyTheme s.currentTheme s
  let s := bindEvents s
  if s.matchMedia.isSome then
    { s with listeners := s.listeners ++ [.colorSchemeChange] }
  else s

/-- The constructor, run on a freshly loaded page. -/
def new (page : State) : Except JsError State := do
  let (saved, s) ← getSavedTheme page
  pure (init { s with currentTheme := saved })

/-- The function `addThemeSwitcherTo(containerSelector)`, given whether the selector
finds a container; the new switcher becomes the last one of the document. -/
def addThemeSwitcherTo (containerFound : Bool) (s : State) : State :=
  if containerFound then
    { s with document :=
        { s.document with switchers := s.document.switchers ++ [createSwitcherElement s] } }
  else s

/-! ## Predicates on the document root -/

/-- The root carries the dark markers: `data-theme="dark"`, class `theme-dark`, and not
class `theme-light`. -/
def RootEl.isDark (html : RootEl) : Prop :=
  html.dataTheme = some "dark" ∧ "theme-dark" ∈ html.classList ∧
    "theme-light" ∉ html.classList

/-- The root carries the light markers: class `theme-light`, no `data-theme` attribute,
and not class `theme-dark`. -/
def RootEl.isLight (html : RootEl) : Prop :=
  html.dataTheme = none ∧ "theme-light" ∈ html.classList ∧
    "theme-dark" ∉ html.classList

instance (html : RootEl) : Decidable html.isDark := by
  unfold RootEl.isDark; infer_instance

instance (html : RootEl) : Decidable html.isLight := by
  unfold RootEl.isLight; infer_instance

/-- A sample page: a stored preference, two populated switchers showing different
values, a root with stale markers. -/
def samplePage : State :=
  { currentTheme := .str "light",
    localStorage := { items := [("ytdlp2strm-theme", "light")],
                      getItemThrows := false, setItemThrows := false },
    matchMedia := some true,
    document :=
      { documentElement := { dataTheme := none, classList := ["no-js", "theme-light"] },
        headerControls := true,
        switchers :=
          [ { selects := [(populateSelect ⟨[], none⟩).setValue "light"] },
            { selects := [(populateSelect ⟨[], none⟩).setValue "auto"] } ],
        otherSelects := [],
        favicon := false },
    dispatched := [],
    console := [],
    listeners := [.documentChange, .documentKeydown, .colorSchemeChange] }

/-! ## Specification-side definitions -/

/-- The value of the local variable `effectiveTheme` that `applyTheme(theme)` computes. -/
def effectiveThemeOf (theme : JsPrim) (s : State) : JsPrim :=
  if theme = .str "auto" then
    if prefersDark s then .str "dark" else .str "light"
  else theme

/-- The cycle as the specification words it: light, then dark, then auto, then light
again (a value outside the cycle is left alone). -/
def specNext (p : String) : String :=
  if p = "light" then "dark"
  else if p = "dark" then "auto"
  else if p = "auto" then "light"
  else p

/-- The option list `populateSelect` leaves in a select. -/
def populatedOptions : List OptionEl := (populateSelect ⟨[], none⟩).options

/-! ## The lookup `THEMES[key]` -/

theorem objectKeys_eq : objectKeys = ["light", "dark", "auto"] := by decide

theorem getProperty_themeName (x : String) (hx : x ∈ ["light", "dark", "auto"]) :
    (getProperty (.str x)).toBoolean = true := by
  simp only [List.mem_cons, List.mem_singleton, List.not_mem_nil, or_false] at hx
  rcases hx with rfl | rfl | rfl <;> decide

theorem toBoolean_themeName (x : String) (hx : x ∈ ["light", "dark", "auto"]) :
    (JsPrim.str x).toBoolean = true := by
  simp only [List.mem_cons, List.mem_singleton, List.not_mem_nil, or_false] at hx
  rcases hx with rfl | rfl | rfl <;> decide

theorem getProperty_unknown (k : JsPrim)
    (hown : k.toJsString ∉ ["light", "dark", "auto"])
    (hproto : k.toJsString ∉ objectPrototypeKeys) :
    getProperty k = .undefined := by
  simp only [List.mem_cons, List.mem_singleton, List.not_mem_nil, or_false, not_or] at hown
  obtain ⟨h1, h2, h3⟩ := hown
  have b1 : (k.toJsString == "light") = false := by simpa using h1
  have b2 : (k.toJsString == "dark") = false := by simpa using h2
  have b3 : (k.toJsString == "auto") = false := by simpa using h3
  simp [getProperty, THEMES, List.lookup, hproto, b1, b2, b3]

/-! ## The class list of the document root -/

theorem mem_classListRemove (html : RootEl) (tokens : List String) (c : String) :
    c ∈ (html.classListRemove tokens).classList ↔ c ∈ html.classList ∧ c ∉ tokens := by
  simp [RootEl.classListRemove, List.mem_filter]

theorem mem_classListAdd (html : RootEl) (token c : String) :
    c ∈ (html.classListAdd token).classList ↔ c ∈ html.classList ∨ c = token := by
  unfold RootEl.classListAdd
  split
  · constructor
    · intro h; exact Or.inl h
    · rintro (h | rfl)
      · exact h
      · assumption
  · simp

theorem dataTheme_classListAdd (html : RootEl) (token : String) :
    (html.classListAdd token).dataTheme = html.dataTheme := by
  unfold RootEl.classListAdd
  split <;> rfl

theorem dataTheme_classListRemove (html : RootEl) (tokens : List String) :
    (html.classListRemove tokens).dataTheme = html.dataTheme := rfl

/-- The root written by `applyTheme` when the effective theme is `dark`. -/
theorem isDark_after_apply (html : RootEl) :
    (({ ({ html with dataTheme := none } : RootEl).classListRemove
          ["theme-light", "theme-dark"] with dataTheme := some "dark" } : RootEl).classListAdd
        "theme-dark").isDark := by
  refine ⟨?_, ?_, ?_⟩
  · rw [dataTheme_classListAdd]
  · rw [mem_classListAdd]; exact Or.inr rfl
  · rw [mem_classListAdd]
    rintro (h | h)
    · have h2 : "theme-light" ∈ (({ html with dataTheme := none } : RootEl).classListRemove
          ["theme-light", "theme-dark"]).classList := h
      rw [mem_classListRemove] at h2
      exact h2.2 (by decide)
    · exact absurd h (by decide)

/-- The root written by `applyTheme` when the effective theme is not `dark`. -/
theorem isLight_after_apply (html : RootEl) :
    ((({ html with dataTheme := none } : RootEl).classListRemove
          ["theme-light", "theme-dark"]).classListAdd "theme-light").isLight := by
  refine ⟨?_, ?_, ?_⟩
  · rw [dataTheme_classListAdd]; rfl
  · rw [mem_classListAdd]; exact Or.inr rfl
  · rw [mem_classListAdd]
    rintro (h | h)
    · rw [mem_classListRemove] at h
      exact h.2 (by decide)
    · exact absurd h (by decide)

/-! ## `applyTheme` -/

theorem applyTheme_currentTheme (theme : JsPrim) (s : State) :
    (applyTheme theme s).currentTheme = s.currentTheme := by
  simp [applyTheme, updateFavicon]

theorem applyTheme_localStorage (theme : JsPrim) (s : State) :
    (applyTheme theme s).localStorage = s.localStorage := by
  simp [applyTheme, updateFavicon]

theorem applyTheme_matchMedia (theme : JsPrim) (s : State) :
    (applyTheme theme s).matchMedia = s.matchMedia := by
  simp [applyTheme, updateFavicon]

theorem applyTheme_themeSelects (theme : JsPrim) (s : State) :
    (applyTheme theme s).document.themeSelects = s.document.themeSelects := by
  simp [applyTheme, updateFavicon, Document.themeSelects]

theorem applyTheme_dispatched (theme : JsPrim) (s : State) :
    (applyTheme theme s).dispatched = s.dispatched ++
      [{ type := "themechange",
         detail := { theme := s.currentTheme, effectiveTheme := effectiveThemeOf theme s } }] := by
  simp [applyTheme, updateFavicon, effectiveThemeOf]

theorem applyTheme_root_dark (theme : JsPrim) (s : State)
    (h : effectiveThemeOf theme s = .str "dark") :
    (applyTheme theme s).document.documentElement.isDark := by
  have h2 : (if theme = JsPrim.str "auto" then
      if prefersDark s then JsPrim.str "dark" else JsPrim.str "light" else theme)
      = JsPrim.str "dark" := h
  simp only [applyTheme, updateFavicon, h2, if_true, ite_self]
  exact isDark_after_apply _

theorem applyTheme_root_light (theme : JsPrim) (s : State)
    (h : effectiveThemeOf theme s ≠ .str "dark") :
    (applyTheme theme s).document.documentElement.isLight := by
  have h2 : ¬ (if theme = JsPrim.str "auto" then
      if prefersDark s then JsPrim.str "dark" else JsPrim.str "light" else theme)
      = JsPrim.str "dark" := h
  simp only [applyTheme, updateFavicon, h2, if_false, ite_self]
  exact isLight_after_apply _

/-! ## `updateAllSwitchers` -/

theorem flatMap_selects_map (f : SelectEl → SelectEl) (sws : List SwitcherEl) :
    (sws.map (fun sw => ({ selects := sw.selects.map f } : SwitcherEl))).flatMap
        SwitcherEl.selects = (sws.flatMap SwitcherEl.selects).map f := by
  induction sws with
  | nil => rfl
  | cons sw rest ih => simp [List.flatMap_cons, ih]

theorem updateAllSwitchers_themeSelects (s : State) :
    (updateAllSwitchers s).document.themeSelects =
      s.document.themeSelects.map (fun sel => sel.setValue s.currentTheme.toJsString) := by
  simp [updateAllSwitchers, Document.themeSelects, flatMap_selects_map]

theorem updateAllSwitchers_frame (s : State) :
    (updateAllSwitchers s).currentTheme = s.currentTheme ∧
    (updateAllSwitchers s).localStorage = s.localStorage ∧
    (updateAllSwitchers s).matchMedia = s.matchMedia ∧
    (updateAllSwitchers s).dispatched = s.dispatched ∧
    (updateAllSwitchers s).console = s.console ∧
    (updateAllSwitchers s).document.documentElement = s.document.documentElement := by
  simp [updateAllSwitchers]

/-! ## `saveTheme` and `setTheme` -/

theorem saveTheme_ok (theme : JsPrim) (s : State) :
    ∃ s0, saveTheme theme s = .ok s0 ∧ s0.currentTheme = s.currentTheme ∧
      s0.document = s.document ∧ s0.dispatched = s.dispatched ∧
      s0.matchMedia = s.matchMedia ∧
      (s.localStorage.setItemThrows = true → s0.localStorage = s.localStorage) ∧
      (s.localStorage.setItemThrows = false →
        s0.localStorage.items.lookup STORAGE_KEY = some theme.toJsString ∧
        s0.localStorage.getItemThrows = s.localStorage.getItemThrows ∧
        s0.console = s.console) := by
  cases hw : s.localStorage.setItemThrows
  · refine ⟨_, by simp [saveTheme, LocalStorage.setItem, hw]; rfl, ?_⟩
    simp [List.lookup]
  · refine ⟨_, by simp [saveTheme, LocalStorage.setItem, hw]; rfl, ?_⟩
    simp [consoleWarn]

theorem setTheme_accepted (theme : JsPrim) (s : State)
    (h : (getProperty theme).toBoolean = true) :
    ∃ s0, saveTheme theme { s with currentTheme := theme } = .ok s0 ∧
      setTheme theme s = .ok (updateAllSwitchers (applyTheme theme s0)) := by
  obtain ⟨s0, h0, -⟩ := saveTheme_ok theme { s with currentTheme := theme }
  refine ⟨s0, h0, ?_⟩
  simp [setTheme, h, h0, bind, Except.bind, pure, Except.pure]

theorem setTheme_rejected (theme : JsPrim) (s : State)
    (h : (getProperty theme).toBoolean = false) :
    setTheme theme s = .ok (consoleWarn ("Unknown theme: " ++ theme.toJsString) s) := by
  simp [setTheme, h]

/-- The source expression `window.matchMedia && matchMedia(...).matches` is truthy
exactly when `matchMedia` exists and the query matches. -/
theorem prefersDark_iff (s : State) : prefersDark s = true ↔ s.matchMedia = some true := by
  rcases hm : s.matchMedia with _ | _ | _ <;> simp [prefersDark, hm]

theorem effectiveThemeOf_congr (theme : JsPrim) (s t : State) (h : t.matchMedia = s.matchMedia) :
    effectiveThemeOf theme t = effectiveThemeOf theme s := by
  simp [effectiveThemeOf, prefersDark, h]

/-- Everything `setTheme(theme)` does once the lookup `THEMES[theme]` is truthy. -/
theorem setTheme_effects (theme : JsPrim) (s : State)
    (hacc : (getProperty theme).toBoolean = true) :
    ∃ s1, setTheme theme s = .ok s1 ∧ s1.currentTheme = theme ∧
      s1.matchMedia = s.matchMedia ∧
      s1.dispatched = s.dispatched ++
        [{ type := "themechange",
           detail := { theme := theme, effectiveTheme := effectiveThemeOf theme s } }] ∧
      (effectiveThemeOf theme s = .str "dark" → s1.document.documentElement.isDark) ∧
      (effectiveThemeOf theme s ≠ .str "dark" → s1.document.documentElement.isLight) ∧
      s1.document.themeSelects =
        s.document.themeSelects.map (fun sel => sel.setValue theme.toJsString) ∧
      (s.localStorage.setItemThrows = true → s1.localStorage = s.localStorage) ∧
      (s.localStorage.setItemThrows = false →
        s1.localStorage.items.lookup STORAGE_KEY = some theme.toJsString ∧
        s1.localStorage.getItemThrows = s.localStorage.getItemThrows) := by
  obtain ⟨s0, h0, hset⟩ := setTheme_accepted theme s hacc
  obtain ⟨t, ht, hcur, hdoc, hdisp, hmm, hthrow, hok⟩ :=
    saveTheme_ok theme { s with currentTheme := theme }
  have : t = s0 := by
    have := ht.symm.trans h0
    injection this
  subst this
  have hU := updateAllSwitchers_frame (applyTheme theme t)
  obtain ⟨u1, u2, u3, u4, -, u6⟩ := hU
  have he : effectiveThemeOf theme t = effectiveThemeOf theme s :=
    effectiveThemeOf_congr _ _ _ hmm
  refine ⟨_, hset, ?_, ?_, ?_, ?_, ?_, ?_, ?_, ?_⟩
  · rw [u1, applyTheme_currentTheme, hcur]
  · rw [u3, applyTheme_matchMedia, hmm]
  · rw [u4, applyTheme_dispatched, hdisp, hcur, he]
  · intro h
    rw [u6]
    exact applyTheme_root_dark _ _ (he.trans h)
  · intro h
    rw [u6]
    exact applyTheme_root_light _ _ (by rw [he]; exact h)
  · rw [updateAllSwitchers_themeSelects, applyTheme_themeSelects, applyTheme_currentTheme,
      hcur, hdoc]
  · intro h
    rw [u2, applyTheme_localStorage]
    exact hthrow h
  · intro h
    rw [u2, applyTheme_localStorage]
    exact ⟨(hok h).1, (hok h).2.1⟩

/-- Everything `setTheme(x)` does for a theme name `x`. -/
theorem setTheme_themeName (x : String) (s : State) (hx : x ∈ ["light", "dark", "auto"]) :
    ∃ s1, setTheme (.str x) s = .ok s1 ∧ s1.currentTheme = .str x ∧
      s1.matchMedia = s.matchMedia ∧
      s1.dispatched = s.dispatched ++
        [{ type := "themechange",
           detail := { theme := .str x, effectiveTheme := effectiveThemeOf (.str x) s } }] ∧
      (effectiveThemeOf (.str x) s = .str "dark" → s1.document.documentElement.isDark) ∧
      (effectiveThemeOf (.str x) s ≠ .str "dark" → s1.document.documentElement.isLight) ∧
      s1.document.themeSelects =
        s.document.themeSelects.map (fun sel => sel.setValue x) ∧
      (s.localStorage.setItemThrows = true → s1.localStorage = s.localStorage) ∧
      (s.localStorage.setItemThrows = false →
        s1.localStorage.items.lookup STORAGE_KEY = some x ∧
        s1.localStorage.getItemThrows = s.localStorage.getItemThrows) :=
  setTheme_effects (.str x) s (getProperty_themeName x hx)

/-! ## `getSavedTheme` -/

theorem getSavedTheme_of_themeName (x : String) (s : State)
    (hx : x ∈ ["light", "dark", "auto"])
    (hr : s.localStorage.getItemThrows = false)
    (hs : s.localStorage.items.lookup STORAGE_KEY = some x) :
    getSavedTheme s = .ok (.str x, s) := by
  simp [getSavedTheme, LocalStorage.getItem, hr, hs, getProperty_themeName x hx,
    toBoolean_themeName x hx]

theorem getSavedTheme_of_absent (s : State)
    (hr : s.localStorage.getItemThrows = false)
    (hs : s.localStorage.items.lookup STORAGE_KEY = none) :
    getSavedTheme s = .ok (.str "auto", s) := by
  simp [getSavedTheme, LocalStorage.getItem, hr, hs, JsPrim.toBoolean]

theorem getSavedTheme_of_unknown (v : String) (s : State)
    (hr : s.localStorage.getItemThrows = false)
    (hs : s.localStorage.items.lookup STORAGE_KEY = some v)
    (hown : v ∉ ["light", "dark", "auto"]) (hproto : v ∉ objectPrototypeKeys) :
    getSavedTheme s = .ok (.str "auto", s) := by
  have h := getProperty_unknown (.str v) hown hproto
  simp [getSavedTheme, LocalStorage.getItem, hr, hs, h, PropertyValue.toBoolean]

theorem getSavedTheme_of_throw (s : State) (hr : s.localStorage.getItemThrows = true) :
    getSavedTheme s =
      .ok (.str "auto", consoleWarn "Could not access localStorage for theme preference" s) := by
  simp [getSavedTheme, LocalStorage.getItem, hr]

theorem setTheme_unknown_noop (theme : JsPrim) (s : State)
    (hown : theme.toJsString ∉ ["light", "dark", "auto"])
    (hproto : theme.toJsString ∉ objectPrototypeKeys) :
    ∃ s1, setTheme theme s = .ok s1 ∧ s1.currentTheme = s.currentTheme ∧
      s1.localStorage = s.localStorage ∧ s1.document = s.document ∧
      s1.dispatched = s.dispatched := by
  have h := getProperty_unknown theme hown hproto
  refine ⟨_, setTheme_rejected theme s (by rw [h]; rfl), ?_⟩
  simp [consoleWarn]

/-- C1, the code at the failing input: when the string stored under the key is
`constructor`, a property every object literal inherits, `getSavedTheme()` returns the
stored string `constructor` and not `auto`, although `constructor` is none of `light`,
`dark`, `auto`. -/
theorem getSavedTheme_inherited_key (s : State) :
    "constructor" ∉ ["light", "dark", "auto"] ∧
    getSavedTheme { s with localStorage :=
        { items := [(STORAGE_KEY, "constructor")], getItemThrows := false,
          setItemThrows := s.localStorage.setItemThrows } } =
      .ok (.str "constructor", { s with localStorage :=
        { items := [(STORAGE_KEY, "constructor")], getItemThrows := false,
          setItemThrows := s.localStorage.setItemThrows } }) := by
  refine ⟨by decide, ?_⟩
  have h1 : (getProperty (.str "constructor")).toBoolean = true := by decide
  have h2 : (JsPrim.str "constructor").toBoolean = true := by decide
  have h3 : List.lookup STORAGE_KEY [(STORAGE_KEY, "constructor")] = some "constructor" := by
    decide
  simp [getSavedTheme, LocalStorage.getItem, h1, h2, h3]

/-- C2, the code at the failing input: `setTheme('toString')` is not a no-op. The lookup
`THEMES['toString']` finds the inherited function, so the preference becomes `toString`,
a `themechange` event is dispatched, the root is given the light markers, and every
switcher is set to a value it has no option for, which (on the sample page) leaves both
switchers showing the empty value; with writes succeeding `toString` is stored. -/
theorem setTheme_inherited_key (s : State) :
    "toString" ∉ ["light", "dark", "auto"] ∧
    (∃ s1, setTheme (.str "toString") s = .ok s1 ∧
      s1.currentTheme = .str "toString" ∧
      s1.dispatched = s.dispatched ++
        [{ type := "themechange",
           detail := { theme := .str "toString", effectiveTheme := .str "toString" } }] ∧
      s1.document.documentElement.isLight ∧
      s1.document.themeSelects =
        s.document.themeSelects.map (fun sel => sel.setValue "toString")) ∧
    (∃ s1, setTheme (.str "toString") samplePage = .ok s1 ∧
      s1.localStorage.items.lookup STORAGE_KEY = some "toString" ∧
      samplePage.localStorage.items.lookup STORAGE_KEY = some "light" ∧
      s1.document.themeSelects.map SelectEl.value = ["", ""] ∧
      samplePage.document.themeSelects.map SelectEl.value = ["light", "auto"]) := by
  refine ⟨by decide, ?_, ?_⟩
  · obtain ⟨s1, h1, h2, -, h4, -, h6, h7, -, -⟩ :=
      setTheme_effects (.str "toString") s (by decide)
    have he : effectiveThemeOf (.str "toString") s = .str "toString" := by
      simp [effectiveThemeOf]
    refine ⟨s1, h1, h2, ?_, h6 ?_, h7⟩
    · rw [h4, he]
    · rw [he]; decide
  · refine ⟨_, rfl, ?_, ?_, ?_, ?_⟩ <;> decide

theorem init_currentTheme (s : State) : (init s).currentTheme = s.currentTheme := by
  unfold init
  simp only []
  split <;>
    simp [bindEvents, applyTheme_currentTheme, createThemeSwitcher] <;>
    split <;> (try split) <;> rfl

/-- C3: persistence round trip. For a theme name `x`, when `localStorage` reads and
writes succeed, `setTheme(x)` returns normally and leaves `x` stored under the key
`ytdlp2strm-theme`; on any later page that has this storage, `getSavedTheme()` returns
`x`, and so a newly constructed manager starts with the preference `x`. -/
theorem setTheme_getSavedTheme_roundtrip (x : String) (s : State)
    (hx : x ∈ ["light", "dark", "auto"])
    (hr : s.localStorage.getItemThrows = false)
    (hw : s.localStorage.setItemThrows = false) :
    ∃ s1, setTheme (.str x) s = .ok s1 ∧
      s1.localStorage.getItem STORAGE_KEY = .ok (.str x) ∧
      ∀ page : State, page.localStorage = s1.localStorage →
        getSavedTheme page = .ok (.str x, page) ∧
        ∃ m, new page = .ok m ∧ getCurrentTheme m = .str x := by
  obtain ⟨s1, h1, -, -, -, -, -, -, -, hok⟩ := setTheme_themeName x s hx
  obtain ⟨hl, hg⟩ := hok hw
  have hr1 : s1.localStorage.getItemThrows = false := hg.trans hr
  refine ⟨s1, h1, ?_, ?_⟩
  · simp [LocalStorage.getItem, hr1, hl]
  · intro page hp
    have hsaved : getSavedTheme page = .ok (.str x, page) :=
      getSavedTheme_of_themeName x page hx (by rw [hp]; exact hr1) (by rw [hp]; exact hl)
    refine ⟨hsaved, init { page with currentTheme := .str x }, ?_, ?_⟩
    · simp [new, hsaved, bind, Except.bind, pure, Except.pure]
    · simp [getCurrentTheme, init_currentTheme]

theorem setTheme_getSavedTheme_roundtrip_witness :
    "dark" ∈ ["light", "dark", "auto"] ∧
    samplePage.localStorage.getItemThrows = false ∧
    samplePage.localStorage.setItemThrows = false ∧
    ∃ s1, setTheme (.str "dark") samplePage = .ok s1 ∧
      s1.localStorage.getItem STORAGE_KEY = .ok (.str "dark") ∧
      ∀ page : State, page.localStorage = s1.localStorage →
        getSavedTheme page = .ok (.str "dark", page) ∧
        ∃ m, new page = .ok m ∧ getCurrentTheme m = .str "dark" :=
  ⟨by decide, rfl, rfl,
    setTheme_getSavedTheme_roundtrip "dark" samplePage (by decide) rfl rfl⟩

/-- C4: for a theme name `x` and OS dark-scheme signal `d` (`window.matchMedia` exists
and the query `(prefers-color-scheme: dark)` matches, that is `matchMedia = some true`),
let `e` be `dark` if `x` is `dark`, or `x` is `auto` and `d` holds, and `light`
otherwise. Then
`setTheme(x)` returns normally, appends exactly one `themechange` event with detail
`{theme: x, effectiveTheme: e}`, and leaves the root with the dark markers
(`data-theme="dark"`, class `theme-dark`, no class `theme-light`) when `e` is `dark`,
and with the light markers (class `theme-light`, no `data-theme`, no class
`theme-dark`) when `e` is `light`, whatever the root carried before. -/
theorem setTheme_markers_and_event (x : String) (s : State)
    (hx : x ∈ ["light", "dark", "auto"]) :
    ∃ s1, setTheme (.str x) s = .ok s1 ∧
      s1.dispatched = s.dispatched ++
        [{ type := "themechange",
           detail := { theme := .str x,
                       effectiveTheme :=
                         if x = "dark" ∨ (x = "auto" ∧ s.matchMedia = some true)
                         then .str "dark" else .str "light" } }] ∧
      (if x = "dark" ∨ (x = "auto" ∧ s.matchMedia = some true)
        then s1.document.documentElement.isDark
        else s1.document.documentElement.isLight) := by
  obtain ⟨s1, h1, -, -, h4, h5, h6, -, -, -⟩ := setTheme_themeName x s hx
  have he : effectiveThemeOf (.str x) s =
      if x = "dark" ∨ (x = "auto" ∧ s.matchMedia = some true)
      then .str "dark" else .str "light" := by
    simp only [List.mem_cons, List.mem_singleton, List.not_mem_nil, or_false] at hx
    rcases hx with rfl | rfl | rfl
    · simp [effectiveThemeOf]
    · simp [effectiveThemeOf]
    · rcases hm : s.matchMedia with _ | _ | _ <;> simp [effectiveThemeOf, prefersDark, hm]
  refine ⟨s1, h1, ?_, ?_⟩
  · rw [h4, he]
  · by_cases hc : x = "dark" ∨ (x = "auto" ∧ s.matchMedia = some true)
    · rw [if_pos hc]
      rw [if_pos hc] at he
      exact h5 he
    · rw [if_neg hc]
      rw [if_neg hc] at he
      exact h6 (by rw [he]; decide)

/-- On the sample page the OS signal is dark and its root carries stale light markers:
`setTheme('auto')` dispatches `{theme: 'auto', effectiveTheme: 'dark'}` and leaves the
dark markers. -/
theorem setTheme_markers_and_event_witness :
    "auto" ∈ ["light", "dark", "auto"] ∧
    samplePage.matchMedia = some true ∧
    ∃ s1, setTheme (.str "auto") samplePage = .ok s1 ∧
      s1.dispatched = samplePage.dispatched ++
        [{ type := "themechange",
           detail := { theme := .str "auto", effectiveTheme := .str "dark" } }] ∧
      s1.document.documentElement.isDark := by
  obtain ⟨s1, h1, h2, h3⟩ := setTheme_markers_and_event "auto" samplePage (by decide)
  have hc : "auto" = "dark" ∨ ("auto" = "auto" ∧ samplePage.matchMedia = some true) :=
    Or.inr ⟨rfl, rfl⟩
  rw [if_pos hc] at h2 h3
  exact ⟨by decide, rfl, s1, h1, h2, h3⟩

/-- C5: for every manager state, `applyTheme('auto')` dispatches one event whose
`effectiveTheme` is `dark` exactly when `window.matchMedia` exists and the dark-scheme
query matches, and `light` in every other case; the root gets the dark markers in the
first case and the light markers otherwise; and while the preference is `auto`,
`getEffectiveTheme()` returns that same value. -/
theorem applyTheme_auto_resolves (s : State) :
    (applyTheme (.str "auto") s).dispatched = s.dispatched ++
      [{ type := "themechange",
         detail := { theme := s.currentTheme,
                     effectiveTheme :=
                       if s.matchMedia = some true then .str "dark" else .str "light" } }] ∧
    (if s.matchMedia = some true
      then (applyTheme (.str "auto") s).document.documentElement.isDark
      else (applyTheme (.str "auto") s).document.documentElement.isLight) ∧
    (s.currentTheme = .str "auto" →
      getEffectiveTheme s =
        if s.matchMedia = some true then .str "dark" else .str "light") := by
  have he : effectiveThemeOf (.str "auto") s =
      if s.matchMedia = some true then .str "dark" else .str "light" := by
    rcases hm : s.matchMedia with _ | _ | _ <;> simp [effectiveThemeOf, prefersDark, hm]
  refine ⟨?_, ?_, ?_⟩
  · rw [applyTheme_dispatched, he]
  · by_cases hc : s.matchMedia = some true
    · rw [if_pos hc]
      rw [if_pos hc] at he
      exact applyTheme_root_dark _ _ he
    · rw [if_neg hc]
      rw [if_neg hc] at he
      exact applyTheme_root_light _ _ (by rw [he]; decide)
  · intro hcur
    rw [← he]
    simp [getEffectiveTheme, effectiveThemeOf, hcur]

/-- What `setTheme` leaves in memory and in the document does not depend on the storage:
two states that agree on the document, the OS signal and the event log end in the same
preference, document and event log. -/
theorem setTheme_congr (theme : JsPrim) (s t : State)
    (hacc : (getProperty theme).toBoolean = true)
    (hdoc : t.document = s.document) (hmm : t.matchMedia = s.matchMedia)
    (hdisp : t.dispatched = s.dispatched) :
    ∃ s1 t1, setTheme theme s = .ok s1 ∧ setTheme theme t = .ok t1 ∧
      t1.currentTheme = s1.currentTheme ∧ t1.document = s1.document ∧
      t1.dispatched = s1.dispatched := by
  obtain ⟨s0, hs0, hs⟩ := setTheme_accepted theme s hacc
  obtain ⟨t0, ht0, ht⟩ := setTheme_accepted theme t hacc
  obtain ⟨s0', hs0', a1, a2, a3, a4, -, -⟩ := saveTheme_ok theme { s with currentTheme := theme }
  obtain ⟨t0', ht0', b1, b2, b3, b4, -, -⟩ := saveTheme_ok theme { t with currentTheme := theme }
  have es : s0' = s0 := by
    have := hs0'.symm.trans hs0
    injection this
  have et : t0' = t0 := by
    have := ht0'.symm.trans ht0
    injection this
  subst es et
  refine ⟨_, _, hs, ht, ?_, ?_, ?_⟩
  · simp [updateAllSwitchers, applyTheme, updateFavicon, a1, b1]
  · simp at a2 b2 a4 b4 a1 b1
    simp [updateAllSwitchers, applyTheme, updateFavicon, prefersDark, a1, b1, a2, b2, a4, b4,
      hdoc, hmm]
  · simp at a3 b3 a4 b4 a1 b1
    simp [updateAllSwitchers, applyTheme, updateFavicon, prefersDark, a1, b1, a3, b3, a4, b4,
      hdisp, hmm]

/-- C6: storage failures never propagate. If `localStorage.getItem` throws,
`getSavedTheme()` returns `auto` normally, the value it returns when nothing is stored.
If `localStorage.setItem` throws, then for a theme name `x`, `setTheme(x)` returns
normally with the preference `x`, every switcher set to `x`, and the same preference,
document (root markers and switchers) and dispatched events as the same call ends in
when the write succeeds; the storage is left as it was. -/
theorem storage_failures_recovered (x : String) (s : State)
    (hx : x ∈ ["light", "dark", "auto"]) :
    (s.localStorage.getItemThrows = true →
      (∃ s1, getSavedTheme s = .ok (.str "auto", s1)) ∧
      (getSavedTheme s).map Prod.fst =
        (getSavedTheme { s with localStorage :=
          { items := [], getItemThrows := false,
            setItemThrows := s.localStorage.setItemThrows } }).map Prod.fst) ∧
    (s.localStorage.setItemThrows = true →
      ∃ s1 s2, setTheme (.str x) s = .ok s1 ∧
        setTheme (.str x)
          { s with localStorage := { s.localStorage with setItemThrows := false } } = .ok s2 ∧
        getCurrentTheme s1 = .str x ∧
        s1.document.themeSelects =
          s.document.themeSelects.map (fun sel => sel.setValue x) ∧
        s1.currentTheme = s2.currentTheme ∧
        s1.document = s2.document ∧
        s1.dispatched = s2.dispatched ∧
        s1.localStorage = s.localStorage) := by
  constructor
  · intro hr
    refine ⟨⟨_, getSavedTheme_of_throw s hr⟩, ?_⟩
    rw [getSavedTheme_of_throw s hr,
      getSavedTheme_of_absent
        { s with localStorage :=
          { items := [], getItemThrows := false,
            setItemThrows := s.localStorage.setItemThrows } } rfl rfl]
    rfl
  · intro hw
    obtain ⟨s1, s2, h1, h2, e1, e2, e3⟩ := setTheme_congr (.str x) s
      { s with localStorage := { s.localStorage with setItemThrows := false } }
      (getProperty_themeName x hx) rfl rfl rfl
    obtain ⟨u, hu, c1, -, -, -, -, c6, c7, -⟩ := setTheme_themeName x s hx
    have : u = s1 := by
      have := hu.symm.trans h1
      injection this
    subst this
    exact ⟨u, s2, h1, h2, c1, c6, e1.symm, e2.symm, e3.symm, c7 hw⟩

/-- A page whose storage rejects both reads and writes. -/
theorem storage_failures_recovered_witness :
    "dark" ∈ ["light", "dark", "auto"] ∧
    (∃ s1, getSavedTheme
        { samplePage with localStorage :=
            { items := [], getItemThrows := true, setItemThrows := true } } =
      .ok (.str "auto", s1)) ∧
    (∃ s1, setTheme (.str "dark")
        { samplePage with localStorage :=
            { items := [], getItemThrows := true, setItemThrows := true } } = .ok s1 ∧
      getCurrentTheme s1 = .str "dark" ∧
      s1.localStorage = { items := [], getItemThrows := true, setItemThrows := true }) := by
  have h := storage_failures_recovered "dark"
    { samplePage with localStorage :=
        { items := [], getItemThrows := true, setItemThrows := true } } (by decide)
  obtain ⟨s1, -, h1, -, h3, -, -, -, -, h8⟩ := h.2 rfl
  exact ⟨by decide, (h.1 rfl).1, s1, h1, h3, h8⟩

theorem toggleTheme_next (s : State) (p : String) (hp : s.currentTheme = .str p)
    (hv : p ∈ ["light", "dark", "auto"]) :
    toggleTheme s = setTheme (.str (specNext p)) s := by
  simp only [List.mem_cons, List.mem_singleton, List.not_mem_nil, or_false] at hv
  rcases hv with rfl | rfl | rfl
  · have h : arrayGet objectKeys
        (Int.tmod (indexOf objectKeys (.str "light") + 1) objectKeys.length) =
        .str (specNext "light") := by decide
    simp only [toggleTheme, hp, h]
  · have h : arrayGet objectKeys
        (Int.tmod (indexOf objectKeys (.str "dark") + 1) objectKeys.length) =
        .str (specNext "dark") := by decide
    simp only [toggleTheme, hp, h]
  · have h : arrayGet objectKeys
        (Int.tmod (indexOf objectKeys (.str "auto") + 1) objectKeys.length) =
        .str (specNext "auto") := by decide
    simp only [toggleTheme, hp, h]

theorem specNext_mem (p : String) (hv : p ∈ ["light", "dark", "auto"]) :
    specNext p ∈ ["light", "dark", "auto"] := by
  simp only [List.mem_cons, List.mem_singleton, List.not_mem_nil, or_false] at hv
  rcases hv with rfl | rfl | rfl <;> decide

/-- One `toggleTheme()` from a theme name `p` returns normally with the preference
`specNext p`. -/
theorem toggleTheme_step (s : State) (p : String) (hp : s.currentTheme = .str p)
    (hv : p ∈ ["light", "dark", "auto"]) :
    ∃ s1, toggleTheme s = .ok s1 ∧ s1.currentTheme = .str (specNext p) := by
  obtain ⟨s1, h1, h2, -⟩ := setTheme_themeName (specNext p) s (specNext_mem p hv)
  exact ⟨s1, by rw [toggleTheme_next s p hp hv]; exact h1, h2⟩

/-- C7: for a manager whose preference `p` is a theme name, `toggleTheme()` is
`setTheme(next(p))` (same result, same final state), with next(light) = dark,
next(dark) = auto, next(auto) = light; the order is that of `Object.keys(this.THEMES)`,
which is light, dark, auto. -/
theorem toggleTheme_eq_setTheme_next (s : State) (p : String)
    (hp : s.currentTheme = .str p) (hv : p ∈ ["light", "dark", "auto"]) :
    toggleTheme s = setTheme (.str (specNext p)) s ∧
    (∃ s1, toggleTheme s = .ok s1) ∧
    objectKeys = ["light", "dark", "auto"] ∧
    specNext "light" = "dark" ∧ specNext "dark" = "auto" ∧ specNext "auto" = "light" := by
  obtain ⟨s1, h1, -⟩ := toggleTheme_step s p hp hv
  exact ⟨toggleTheme_next s p hp hv, ⟨s1, h1⟩, by decide, by decide, by decide, by decide⟩

theorem toggleTheme_eq_setTheme_next_witness :
    samplePage.currentTheme = .str "light" ∧ "light" ∈ ["light", "dark", "auto"] ∧
    toggleTheme samplePage = setTheme (.str "dark") samplePage :=
  ⟨rfl, by decide,
    (toggleTheme_eq_setTheme_next samplePage "light" rfl (by decide)).1⟩

/-- C8: from a preference `p` that is a theme name, three successive calls of
`toggleTheme()` all return normally and leave `getCurrentTheme()` equal to `p`, while
after one call and after two calls it differs from `p`. -/
theorem toggleTheme_cycle_three (s : State) (p : String)
    (hp : s.currentTheme = .str p) (hv : p ∈ ["light", "dark", "auto"]) :
    ∃ s1 s2 s3, toggleTheme s = .ok s1 ∧ toggleTheme s1 = .ok s2 ∧
      toggleTheme s2 = .ok s3 ∧
      getCurrentTheme s3 = .str p ∧
      getCurrentTheme s1 ≠ .str p ∧ getCurrentTheme s2 ≠ .str p := by
  obtain ⟨s1, h1, c1⟩ := toggleTheme_step s p hp hv
  obtain ⟨s2, h2, c2⟩ := toggleTheme_step s1 _ c1 (specNext_mem p hv)
  obtain ⟨s3, h3, c3⟩ := toggleTheme_step s2 _ c2 (specNext_mem _ (specNext_mem p hv))
  refine ⟨s1, s2, s3, h1, h2, h3, ?_, ?_, ?_⟩
  · simp only [List.mem_cons, List.mem_singleton, List.not_mem_nil, or_false] at hv
    rw [getCurrentTheme, c3]
    rcases hv with rfl | rfl | rfl <;> decide
  · simp only [List.mem_cons, List.mem_singleton, List.not_mem_nil, or_false] at hv
    rw [getCurrentTheme, c1]
    rcases hv with rfl | rfl | rfl <;> decide
  · simp only [List.mem_cons, List.mem_singleton, List.not_mem_nil, or_false] at hv
    rw [getCurrentTheme, c2]
    rcases hv with rfl | rfl | rfl <;> decide

theorem toggleTheme_cycle_three_witness :
    samplePage.currentTheme = .str "light" ∧ "light" ∈ ["light", "dark", "auto"] ∧
    ∃ s1 s2 s3, toggleTheme samplePage = .ok s1 ∧ toggleTheme s1 = .ok s2 ∧
      toggleTheme s2 = .ok s3 ∧
      getCurrentTheme s3 = .str "light" ∧
      getCurrentTheme s1 ≠ .str "light" ∧ getCurrentTheme s2 ≠ .str "light" :=
  ⟨rfl, by decide, toggleTheme_cycle_three samplePage "light" rfl (by decide)⟩

/-! ## Switcher controls -/

theorem populateSelect_options (sel : SelectEl) :
    (populateSelect sel).options = populatedOptions := rfl

theorem setValue_populated (sel : SelectEl) (x : String)
    (hx : x ∈ ["light", "dark", "auto"]) (hsel : sel.options = populatedOptions) :
    (sel.setValue x).value = x ∧ (sel.setValue x).options = populatedOptions := by
  refine ⟨?_, hsel⟩
  simp only [List.mem_cons, List.mem_singleton, List.not_mem_nil, or_false] at hx
  simp only [SelectEl.setValue, SelectEl.value, hsel]
  rcases hx with rfl | rfl | rfl <;> decide

/-- C9: for a theme name `x`, `setTheme(x)` returns normally and every `.theme-select` of
the document that carries the options written by `populateSelect` (values light, dark,
auto) shows `x` afterwards, whatever it showed before; no control is added or removed.
The controls the manager renders carry those options: `populateSelect` always leaves
them, and the select of a switcher built by `createSwitcherElement` has them. -/
theorem setTheme_updates_switchers (x : String) (s : State)
    (hx : x ∈ ["light", "dark", "auto"]) :
    (∃ s1, setTheme (.str x) s = .ok s1 ∧
      s1.document.themeSelects.length = s.document.themeSelects.length ∧
      ∀ (i : Nat) (sel : SelectEl), s.document.themeSelects[i]? = some sel →
        sel.options = populatedOptions →
        ∃ sel1, s1.document.themeSelects[i]? = some sel1 ∧
          sel1.options = populatedOptions ∧ sel1.value = x) ∧
    populatedOptions.map OptionEl.value = ["light", "dark", "auto"] ∧
    (∀ sel : SelectEl, (populateSelect sel).options = populatedOptions) ∧
    (∀ (t : State) (sel : SelectEl), sel ∈ (createSwitcherElement t).selects →
      sel.options = populatedOptions) := by
  refine ⟨?_, by decide, populateSelect_options, ?_⟩
  · obtain ⟨s1, h1, -, -, -, -, -, h7, -, -⟩ := setTheme_themeName x s hx
    refine ⟨s1, h1, by rw [h7, List.length_map], ?_⟩
    intro i sel hi hsel
    refine ⟨sel.setValue x, ?_, (setValue_populated sel x hx hsel).2,
      (setValue_populated sel x hx hsel).1⟩
    rw [h7, List.getElem?_map, hi]
    rfl
  · intro t sel hmem
    simp only [createSwitcherElement, List.mem_singleton] at hmem
    subst hmem
    rfl

theorem setTheme_updates_switchers_witness :
    "dark" ∈ ["light", "dark", "auto"] ∧
    ∃ s1, setTheme (.str "dark") samplePage = .ok s1 ∧
      s1.document.themeSelects.length = samplePage.document.themeSelects.length ∧
      ∀ (i : Nat) (sel : SelectEl), samplePage.document.themeSelects[i]? = some sel →
        sel.options = populatedOptions →
        ∃ sel1, s1.document.themeSelects[i]? = some sel1 ∧
          sel1.options = populatedOptions ∧ sel1.value = "dark" :=
  ⟨by decide, (setTheme_updates_switchers "dark" samplePage (by decide)).1⟩

/-- C10: the listener registered in `init()` for OS color-scheme changes, run in a state
whose `matchMedia` holds the new OS signal (dark is `matchMedia = some true`). (a) With
the preference `auto` the root afterwards has the dark markers when the new signal is
dark and the light markers when it is light,
and one `themechange` event with detail `{theme: 'auto', effectiveTheme: signal}` is
dispatched. (b) With the preference `light` or `dark` the document is unchanged and no
event is dispatched. In both cases the preference and the storage are unchanged. -/
theorem onColorSchemeChange_step (s : State) :
    (s.currentTheme = .str "auto" →
      (if s.matchMedia = some true
        then (onColorSchemeChange s).document.documentElement.isDark
        else (onColorSchemeChange s).document.documentElement.isLight) ∧
      (onColorSchemeChange s).dispatched = s.dispatched ++
        [{ type := "themechange",
           detail := { theme := .str "auto",
                       effectiveTheme :=
                         if s.matchMedia = some true
                         then .str "dark" else .str "light" } }]) ∧
    (s.currentTheme = .str "light" ∨ s.currentTheme = .str "dark" →
      (onColorSchemeChange s).document = s.document ∧
      (onColorSchemeChange s).dispatched = s.dispatched) ∧
    (onColorSchemeChange s).currentTheme = s.currentTheme ∧
    (onColorSchemeChange s).localStorage = s.localStorage := by
  have he : effectiveThemeOf (.str "auto") s =
      if s.matchMedia = some true then .str "dark" else .str "light" := by
    rcases hm : s.matchMedia with _ | _ | _ <;> simp [effectiveThemeOf, prefersDark, hm]
  refine ⟨?_, ?_, ?_, ?_⟩
  · intro hcur
    simp only [onColorSchemeChange, hcur, if_true]
    refine ⟨?_, ?_⟩
    · by_cases hc : s.matchMedia = some true
      · rw [if_pos hc]
        rw [if_pos hc] at he
        exact applyTheme_root_dark _ _ he
      · rw [if_neg hc]
        rw [if_neg hc] at he
        exact applyTheme_root_light _ _ (by rw [he]; decide)
    · rw [applyTheme_dispatched, he, hcur]
  · intro hcur
    have hne : s.currentTheme ≠ .str "auto" := by
      rcases hcur with h | h <;> rw [h] <;> decide
    simp [onColorSchemeChange, hne]
  · unfold onColorSchemeChange
    split
    · exact applyTheme_currentTheme _ _
    · rfl
  · unfold onColorSchemeChange
    split
    · exact applyTheme_localStorage _ _
    · rfl

end ThemeManager
